import Mathlib

set_option maxRecDepth 4000

/-!
A verification development for the `tflitec` crate: a safe wrapper of the
TensorFlow Lite C API.  The crate root (`src/lib.rs`) declares the modules
`error`, `interpreter`, `model` and `tensor` and documents the intended
behaviour; the module bodies are modelled here from the crate's written
specification, faithful to its words, as executable Lean definitions.
Scalar tensor values are modelled by `Int`: every concrete value appearing
in the crate documentation example (`0.0, 1.0, 2.0, ...` and their triples)
is an integer exactly representable in `f32`, so integer arithmetic models
the example's `f32` arithmetic exactly.
-/

/-- Modelled from the spec: the closed error taxonomy of the `error` module
(declared in `src/lib.rs`, body missing from the sources), spec section 4.1. -/
inductive ErrorKind where
  | invalidArgument
  | allocateTensorsRequired
  | failedToLoadModel
  | failedToCreateInterpreter
  | failedToResizeInputTensor
  | failedToCopyDataToInputTensor
  | failedToInvoke
  | failedToGetTensor
  | readOnlyTensor
  | unknown (code : Int)
  deriving DecidableEq

/-- Modelled from the spec: `tensor::Shape`, an immutable ordered sequence of
dimension sizes (tensor module body missing from the sources), spec section 4.4. -/
structure Shape where
  dimensions : List Int
  deriving DecidableEq

/-- Modelled from the spec: `Shape::new` constructs a shape from an ordered
sequence of integers; a negative dimension yields `InvalidArgument`
(spec section 4.4: no partial or negative dimensions permitted). -/
def Shape.new (ds : List Int) : Except ErrorKind Shape :=
  if ∀ d ∈ ds, 0 ≤ d then Except.ok ⟨ds⟩ else Except.error ErrorKind.invalidArgument

/-- Modelled from the spec: `Shape::rank` is the length of the dimension sequence. -/
def Shape.rank (s : Shape) : Nat := s.dimensions.length

/-- Modelled from the spec: `Shape::element_count`, the running product of the
dimension sizes (spec section 4.4: product of the dimensions, `1` for the
empty shape, `0` whenever a dimension is `0`). -/
def Shape.elementCount (s : Shape) : Int :=
  s.dimensions.foldr (fun d acc => d * acc) 1

/-- Modelled from the spec: the enumerated tensor element data types of the
`tensor` module (body missing from the sources), spec section 3. -/
inductive DataType where
  | float32
  | int32
  | uint8
  | int64
  | string
  | bool
  | int16
  | complex64
  | int8
  | float16
  | float64
  deriving DecidableEq

/-- Modelled from the spec: the byte size of one element of each data type.
String tensors use a variable-length encoding and a dedicated accessor; they
are carried here with a nominal element size of 1. -/
def DataType.byteSize : DataType → Nat
  | .float32 => 4
  | .int32 => 4
  | .uint8 => 1
  | .int64 => 8
  | .string => 1
  | .bool => 1
  | .int16 => 2
  | .complex64 => 8
  | .int8 => 1
  | .float16 => 2
  | .float64 => 8

/-- Modelled from the spec: `interpreter::Options` (interpreter module body
missing from the sources), spec section 4.3: a pure value type holding
`thread_count`; setter-style construction, no validation at construction time. -/
structure Options where
  thread_count : Int
  deriving DecidableEq

/-- Modelled from the spec: the default options value (spec section 4.3:
defaults with `thread_count = 1`). -/
def Options.default : Options := ⟨1⟩

/-- Modelled from the spec: a validated `model::Model` (model module body
missing from the sources), spec sections 4.2 and 1: an immutable parsed model.
The native inference engine is out of scope in the spec and is treated as a
black box; it is modelled by the shape signature `outputSpec` and the numeric
function `compute` that the engine applies on invoke. -/
structure Model where
  inputSpecs : List (Shape × DataType)
  outputSpec : List Shape → List (Shape × DataType)
  compute : List (List Int) → List (List Int)

/-- Modelled from the spec: a `tensor::Tensor` view, spec section 3: element
data type, shape, and the buffer backing it (buffer elements are scalar
values; the byte accounting goes through `DataType.byteSize`). -/
structure Tensor where
  data_type : DataType
  shape : Shape
  buffer : List Int
  deriving DecidableEq

/-- Modelled from the spec: a tensor's byte length, the size in bytes of the
buffer backing it. -/
def Tensor.byte_length (t : Tensor) : Nat :=
  t.buffer.length * t.data_type.byteSize

/-- Modelled from the spec: the typed read accessor `Tensor::data::<T>`
(spec section 4.5): `elemSize` stands for `size_of::<T>()`; the accessor
checks `size_of::<T>() * element_count == byte_length` before exposing the
buffer as a typed view, and fails with a typed error otherwise. -/
def Tensor.data (t : Tensor) (elemSize : Nat) : Except ErrorKind (List Int) :=
  if elemSize * t.shape.elementCount.toNat = t.byte_length then Except.ok t.buffer
  else Except.error ErrorKind.invalidArgument

/-- Modelled from the spec: the interpreter allocation-state flag of spec
section 4.6 (tensors not yet allocated / invalidated pending reallocation /
allocated and ready). -/
inductive AllocationState where
  | created
  | pendingAllocation
  | ready
  deriving DecidableEq

/-- Modelled from the spec: `interpreter::Interpreter` (interpreter module
body missing from the sources), spec section 3: the execution context with
its retained model, its options, its allocation-state flag and its input and
output tensors. -/
structure Interpreter where
  model : Model
  options : Options
  allocation_state : AllocationState
  inputs : List Tensor
  outputs : List Tensor

/-- Modelled from the spec: interpreter construction from a model and
options, spec sections 4.3 and 4.6: `thread_count <= 0` is caught in this
layer and yields `InvalidArgument` before native construction is attempted;
a validated model with valid options constructs successfully. -/
def Interpreter.with_model (m : Model) (o : Options) : Except ErrorKind Interpreter :=
  if o.thread_count ≤ 0 then Except.error ErrorKind.invalidArgument
  else
    Except.ok
      { model := m
        options := o
        allocation_state := AllocationState.created
        inputs := m.inputSpecs.map (fun p => Tensor.mk p.2 p.1 [])
        outputs := [] }

/-- Modelled from the spec: the model of the example file `tests/add.bin`
loaded by the crate documentation (`src/lib.rs` line 44: a model which
outputs `y = 3 * x`, elementwise over a single `f32` input, with one output
of the same shape as the input). -/
def addModel : Model where
  inputSpecs := [(⟨[1, 8, 8, 3]⟩, DataType.float32)]
  outputSpec := fun shapes => shapes.map (fun s => (s, DataType.float32))
  compute := fun inputs => inputs.map (fun xs => xs.map (fun x => 3 * x))

/-- Modelled from the spec: model loading from a path, spec section 4.2.
The filesystem is external to the core; the only model file in the
repository's documented surface is `tests/add.bin`, carried here explicitly.
Every other path fails with `FailedToLoadModel`. -/
def load_model (path : String) : Except ErrorKind Model :=
  if path = "tests/add.bin" then Except.ok addModel
  else Except.error ErrorKind.failedToLoadModel

/-- Modelled from the spec: `Interpreter::with_model_path` (used at
`src/lib.rs` line 45): loads the model at `path` and builds an interpreter
from it with the given options, or with default options when `None`. -/
def Interpreter.with_model_path (path : String) (opts : Option Options) :
    Except ErrorKind Interpreter :=
  (load_model path).bind (fun m => Interpreter.with_model m (opts.getD Options.default))

/-- Modelled from the spec: `Interpreter::resize_input`, spec section 4.6:
an out-of-range index fails with `InvalidArgument`; otherwise the input's
shape is replaced, its stale buffer is dropped, and the interpreter moves to
the pending-allocation state. -/
def Interpreter.resize_input (it : Interpreter) (index : Nat) (s : Shape) :
    Except ErrorKind Interpreter :=
  match it.inputs.get? index with
  | none => Except.error ErrorKind.invalidArgument
  | some t =>
      Except.ok
        { it with
          allocation_state := AllocationState.pendingAllocation
          inputs := it.inputs.set index (Tensor.mk t.data_type s []) }

/-- Modelled from the spec: `Interpreter::allocate_tensors`, spec section
4.6: allocates every input buffer to its shape's element count, allocates
the output tensors as the model's shape signature dictates, and moves the
interpreter to the ready state. -/
def Interpreter.allocate_tensors (it : Interpreter) : Except ErrorKind Interpreter :=
  Except.ok
    { it with
      allocation_state := AllocationState.ready
      inputs := it.inputs.map
        (fun t => Tensor.mk t.data_type t.shape (List.replicate t.shape.elementCount.toNat 0))
      outputs := (it.model.outputSpec (it.inputs.map Tensor.shape)).map
        (fun p => Tensor.mk p.2 p.1 (List.replicate p.1.elementCount.toNat 0)) }

/-- Modelled from the spec: `Interpreter::copy` (used at `src/lib.rs` line
59), spec section 4.5: requires the ready state, validates that the source
byte length (`src.length * elemSize`, with `elemSize` standing for
`size_of::<T>()`) equals the destination tensor's byte length exactly, and
fails with `FailedToCopyDataToInputTensor` on a mismatch or when not ready. -/
def Interpreter.copy (it : Interpreter) (src : List Int) (elemSize : Nat) (index : Nat) :
    Except ErrorKind Interpreter :=
  if it.allocation_state ≠ AllocationState.ready then
    Except.error ErrorKind.failedToCopyDataToInputTensor
  else
    match it.inputs.get? index with
    | none => Except.error ErrorKind.invalidArgument
    | some t =>
        if src.length * elemSize = t.byte_length then
          Except.ok { it with inputs := it.inputs.set index (Tensor.mk t.data_type t.shape src) }
        else Except.error ErrorKind.failedToCopyDataToInputTensor

/-- Modelled from the spec: `Interpreter::invoke`, spec section 4.6: requires
the ready state, failing with `AllocateTensorsRequired` otherwise; on success
the output buffers carry the model's function of the input buffers. -/
def Interpreter.invoke (it : Interpreter) : Except ErrorKind Interpreter :=
  if it.allocation_state = AllocationState.ready then
    Except.ok
      { it with
        outputs := List.zipWith (fun t d => Tensor.mk t.data_type t.shape d) it.outputs
          (it.model.compute (it.inputs.map Tensor.buffer)) }
  else Except.error ErrorKind.allocateTensorsRequired

/-- Modelled from the spec: `Interpreter::input`, spec section 4.6: the input
tensor at an index, `InvalidArgument` when out of range. -/
def Interpreter.input (it : Interpreter) (index : Nat) : Except ErrorKind Tensor :=
  match it.inputs.get? index with
  | some t => Except.ok t
  | none => Except.error ErrorKind.invalidArgument

/-- Modelled from the spec: `Interpreter::output`, spec section 4.6: the
output tensor at an index, `InvalidArgument` when out of range. -/
def Interpreter.output (it : Interpreter) (index : Nat) : Except ErrorKind Tensor :=
  match it.outputs.get? index with
  | some t => Except.ok t
  | none => Except.error ErrorKind.invalidArgument

/-- Modelled from the spec: the reference count kept on a model's owned
buffer (spec sections 3 and 9: an interpreter holds a strong, shared
reference to the model's buffer so the model cannot be destroyed while the
interpreter exists; the buffer is freed only when the last reference is
released). `refs` counts the live references, `freed` records whether the
buffer has been destroyed. -/
structure ModelBufferState where
  refs : Nat
  freed : Bool
  deriving DecidableEq

/-- Modelled from the spec: creating a model gives its caller the single
live reference to the model's buffer. -/
def newModelBuffer : ModelBufferState := ⟨1, false⟩

/-- Modelled from the spec: building an interpreter from the model retains
one more strong reference to the model's buffer. -/
def retainModelBuffer (s : ModelBufferState) : ModelBufferState :=
  ⟨s.refs + 1, s.freed⟩

/-- Modelled from the spec: releasing one reference to the model's buffer;
the buffer is destroyed exactly when the last reference is released. -/
def releaseModelBuffer (s : ModelBufferState) : ModelBufferState :=
  if s.refs ≤ 1 then ⟨0, true⟩ else ⟨s.refs - 1, s.freed⟩

/-- Modelled from the spec: invoking inference reads the model's buffer, so
it can only succeed while the buffer has not been destroyed. -/
def invokeUsingModel (s : ModelBufferState) : Except ErrorKind Unit :=
  if s.freed then Except.error ErrorKind.failedToInvoke else Except.ok ()

/-- The resized input shape of the crate documentation example. -/
def exampleShape : Shape := ⟨[10, 8, 8, 3]⟩

/-- The input data of the crate documentation example: the first 1920
natural numbers, `10 * 8 * 8 * 3` elements. -/
def exampleInput : List Int := List.map (fun n => Int.ofNat n) (List.range 1920)

/-- The freshly allocated example tensor: 1920 zero elements of shape
`[10, 8, 8, 3]`. -/
def exTensorAlloc : Tensor := ⟨DataType.float32, exampleShape, List.replicate 1920 0⟩

/-- The example input tensor after the documented copy. -/
def exTensor : Tensor := ⟨DataType.float32, exampleShape, exampleInput⟩

/-- The example output tensor after invoke: the elementwise tripling of the
example input. -/
def exTensorOut : Tensor :=
  ⟨DataType.float32, exampleShape, exampleInput.map (fun x => 3 * x)⟩

/-- The interpreter as constructed by the documentation example, before any
resize: one input of the model's declared shape, no allocation yet. -/
def itCreated : Interpreter :=
  ⟨addModel, ⟨1⟩, AllocationState.created, [⟨DataType.float32, ⟨[1, 8, 8, 3]⟩, []⟩], []⟩

/-- The example interpreter after `resize_input 0 [10, 8, 8, 3]`. -/
def itPending : Interpreter :=
  ⟨addModel, ⟨1⟩, AllocationState.pendingAllocation, [⟨DataType.float32, exampleShape, []⟩], []⟩

/-- The example interpreter after `allocate_tensors`. -/
def itAllocated : Interpreter :=
  ⟨addModel, ⟨1⟩, AllocationState.ready, [exTensorAlloc], [exTensorAlloc]⟩

/-- The example interpreter after copying the example input. -/
def itCopied : Interpreter :=
  ⟨addModel, ⟨1⟩, AllocationState.ready, [exTensor], [exTensorAlloc]⟩

/-- The example interpreter after `invoke`. -/
def itInvoked : Interpreter :=
  ⟨addModel, ⟨1⟩, AllocationState.ready, [exTensor], [exTensorOut]⟩

/-- Shape with a zero dimension, for the element-count witness. -/
def zeroShape : Shape := ⟨[2, 0, 3]⟩

/-- The empty (rank-0, scalar) shape. -/
def emptyShape : Shape := ⟨[]⟩

/-- The allocated example input tensor with the example input copied in. -/
def exTensorCopied : Tensor :=
  Tensor.mk exTensorAlloc.data_type exTensorAlloc.shape exampleInput

/-- The example interpreter with the copied input tensor written at index 0. -/
def itAllocatedSet : Interpreter :=
  { itAllocated with inputs := itAllocated.inputs.set 0 exTensorCopied }

/-- Invoking while not in the ready state fails with `AllocateTensorsRequired`. -/
theorem invoke_not_ready (it : Interpreter)
    (h : it.allocation_state ≠ AllocationState.ready) :
    it.invoke = Except.error ErrorKind.allocateTensorsRequired := by
  unfold Interpreter.invoke
  rw [if_neg h]

/-- Invoking in the ready state succeeds, with the outputs carrying the
model's function of the input buffers. -/
theorem invoke_ready (it : Interpreter)
    (h : it.allocation_state = AllocationState.ready) :
    it.invoke = Except.ok
      { it with
        outputs := List.zipWith (fun t d => Tensor.mk t.data_type t.shape d) it.outputs
          (it.model.compute (it.inputs.map Tensor.buffer)) } := by
  unfold Interpreter.invoke
  rw [if_pos h]

/-- A successful copy replaces the indexed input tensor's buffer by the source. -/
theorem copy_ok (it : Interpreter) (src : List Int) (es i : Nat) (t : Tensor)
    (h1 : it.allocation_state = AllocationState.ready)
    (h2 : it.inputs.get? i = some t)
    (h3 : src.length * es = t.byte_length) :
    it.copy src es i =
      Except.ok { it with inputs := it.inputs.set i (Tensor.mk t.data_type t.shape src) } := by
  unfold Interpreter.copy
  rw [h1, if_neg (fun hc => hc rfl), h2]
  simp only [if_pos h3]

/-- Updating a list at an index inside its bounds is seen by a lookup at
that index. -/
theorem get?_set_self (l : List Tensor) (i : Nat) (a : Tensor) (h : i < l.length) :
    (l.set i a).get? i = some a := by
  induction l generalizing i with
  | nil => simp at h
  | cons x xs ih =>
      cases i with
      | zero => rfl
      | succ n => simpa using ih n (by simpa using h)

/-- A successful list lookup implies the index is inside the bounds. -/
theorem lt_of_get?_some (l : List Tensor) (i : Nat) (a : Tensor)
    (h : l.get? i = some a) : i < l.length := by
  induction l generalizing i with
  | nil => cases h
  | cons x xs ih =>
      cases i with
      | zero => simp
      | succ n => simpa using ih n (by simpa using h)

/-- Mapping the buffer projection over freshly written output tensors
recovers the written data, up to the number of output tensors. -/
theorem zipWith_mk_map_buffer (ts : List Tensor) (ds : List (List Int)) :
    (List.zipWith (fun t d => Tensor.mk t.data_type t.shape d) ts ds).map Tensor.buffer
      = ds.take ts.length := by
  induction ts generalizing ds with
  | nil => rfl
  | cons t ts ih =>
      cases ds with
      | nil => rfl
      | cons d ds => simp [List.zipWith, List.take, ih]

/-- The running right product of an integer list is its product. -/
theorem foldr_mul_eq_prod (ds : List Int) :
    ds.foldr (fun d acc => d * acc) 1 = ds.prod := by
  induction ds with
  | nil => rfl
  | cons d ds ih => rw [List.foldr_cons, List.prod_cons, ih]

/-- The interpreter produced by `allocate_tensors` on the example state. -/
theorem allocate_example : itPending.allocate_tensors = Except.ok itAllocated := by
  have hEC : (exampleShape.elementCount).toNat = 1920 := by decide
  simp only [Interpreter.allocate_tensors, itPending, itAllocated, addModel, exTensorAlloc,
    List.map_cons, List.map_nil, hEC]

/-- The source byte length of the example input matches the byte length of
the freshly allocated example input tensor. -/
theorem example_len : exampleInput.length * 4 = exTensorAlloc.byte_length := by
  simp only [exampleInput, List.length_map, List.length_range, exTensorAlloc,
    Tensor.byte_length, List.length_replicate, DataType.byteSize]

/-- C1: invoke requires the ready state.  Invoking a freshly constructed
interpreter, or one whose input was resized without a following successful
allocate_tensors, or any interpreter not in the ready state, fails with
`AllocateTensorsRequired`; invoke only runs in the ready state. -/
theorem spec_c1 :
    (∀ it : Interpreter, it.allocation_state ≠ AllocationState.ready →
      it.invoke = Except.error ErrorKind.allocateTensorsRequired) ∧
    (∀ (m : Model) (o : Options) (it : Interpreter),
      Interpreter.with_model m o = Except.ok it →
      it.invoke = Except.error ErrorKind.allocateTensorsRequired) ∧
    (∀ (it it2 : Interpreter) (i : Nat) (s : Shape),
      it.resize_input i s = Except.ok it2 →
      it2.invoke = Except.error ErrorKind.allocateTensorsRequired) ∧
    (∀ it it2 : Interpreter, it.invoke = Except.ok it2 →
      it.allocation_state = AllocationState.ready) := by
  refine ⟨fun it h => invoke_not_ready it h, ?_, ?_, ?_⟩
  · intro m o it h
    unfold Interpreter.with_model at h
    by_cases hc : o.thread_count ≤ 0
    · rw [if_pos hc] at h
      cases h
    · rw [if_neg hc] at h
      injection h with h2
      subst h2
      exact invoke_not_ready _ (by intro hc2; cases hc2)
  · intro it it2 i s h
    unfold Interpreter.resize_input at h
    cases hg : it.inputs.get? i with
    | none => rw [hg] at h; cases h
    | some t =>
        rw [hg] at h
        injection h with h2
        subst h2
        exact invoke_not_ready _ (by intro hc2; cases hc2)
  · intro it it2 h
    by_contra hc
    rw [invoke_not_ready it hc] at h
    cases h

/-- Witness for C1 at concrete states: the freshly built example interpreter
and the example interpreter after a resize both refuse to invoke. -/
theorem spec_c1_witness :
    itCreated.invoke = Except.error ErrorKind.allocateTensorsRequired ∧
    itPending.invoke = Except.error ErrorKind.allocateTensorsRequired :=
  ⟨spec_c1.1 itCreated (by decide),
   spec_c1.2.2.1 itCreated itPending 0 exampleShape rfl⟩

/-- C2: for a ready interpreter, invoke succeeds and the output buffers
carry the model's function of the input buffers; in particular the crate
documentation example round-trips: loading `tests/add.bin` (the y = 3x
model), resizing to `[10, 8, 8, 3]`, allocating, copying the input data
`0, 1, 2, ...`, and invoking succeeds, the output tensor's shape is the
resized input shape, and its contents are the elementwise tripling
`0, 3, 6, ...` of the input. -/
theorem spec_c2 :
    (∀ it : Interpreter, it.allocation_state = AllocationState.ready →
      it.invoke = Except.ok
        { it with
          outputs := List.zipWith (fun t d => Tensor.mk t.data_type t.shape d) it.outputs
            (it.model.compute (it.inputs.map Tensor.buffer)) } ∧
      (List.zipWith (fun t d => Tensor.mk t.data_type t.shape d) it.outputs
          (it.model.compute (it.inputs.map Tensor.buffer))).map Tensor.buffer
        = (it.model.compute (it.inputs.map Tensor.buffer)).take it.outputs.length) ∧
    (Interpreter.with_model_path "tests/add.bin" (some ⟨1⟩) = Except.ok itCreated ∧
     itCreated.resize_input 0 exampleShape = Except.ok itPending ∧
     itPending.allocate_tensors = Except.ok itAllocated ∧
     itAllocated.copy exampleInput 4 0 = Except.ok itCopied ∧
     itCopied.invoke = Except.ok itInvoked ∧
     itInvoked.output 0 = Except.ok exTensorOut ∧
     exTensorOut.shape = exampleShape ∧
     exTensorOut.shape.dimensions = [10, 8, 8, 3] ∧
     exTensorOut.buffer = List.map (fun x => 3 * x) exampleInput) := by
  refine ⟨fun it h => ⟨invoke_ready it h, zipWith_mk_map_buffer _ _⟩,
    rfl, rfl, allocate_example, ?_, ?_, rfl, rfl, rfl, rfl⟩
  · rw [copy_ok itAllocated exampleInput 4 0 exTensorAlloc rfl rfl example_len]
    rfl
  · simp only [Interpreter.invoke, itCopied, itInvoked, addModel, exTensor, exTensorOut,
      exTensorAlloc, List.map_cons, List.map_nil, List.zipWith_cons_cons,
      List.zipWith_nil_right, if_true, reduceIte]

/-- Witness for C2 on the ready example state: invoking it succeeds and the
outputs carry the model's function of the inputs. -/
theorem spec_c2_witness :
    itCopied.invoke = Except.ok
      { itCopied with
        outputs := List.zipWith (fun t d => Tensor.mk t.data_type t.shape d) itCopied.outputs
          (itCopied.model.compute (itCopied.inputs.map Tensor.buffer)) } ∧
    (List.zipWith (fun t d => Tensor.mk t.data_type t.shape d) itCopied.outputs
        (itCopied.model.compute (itCopied.inputs.map Tensor.buffer))).map Tensor.buffer
      = (itCopied.model.compute (itCopied.inputs.map Tensor.buffer)).take itCopied.outputs.length :=
  spec_c2.1 itCopied rfl

/-- C3: options construction stores any thread count unchecked; building an
interpreter with `thread_count <= 0` fails with `InvalidArgument` without
reaching native construction (the outcome does not depend on the model), and
with `thread_count >= 1` construction of an interpreter from a validated
model succeeds. -/
theorem spec_c3 :
    (∀ tc : Int, (Options.mk tc).thread_count = tc) ∧
    (∀ (m : Model) (o : Options), o.thread_count ≤ 0 →
      Interpreter.with_model m o = Except.error ErrorKind.invalidArgument) ∧
    (∀ (m m2 : Model) (o : Options), o.thread_count ≤ 0 →
      Interpreter.with_model m o = Interpreter.with_model m2 o) ∧
    (∀ (m : Model) (o : Options), 1 ≤ o.thread_count →
      Interpreter.with_model m o = Except.ok
        { model := m
          options := o
          allocation_state := AllocationState.created
          inputs := m.inputSpecs.map (fun p => Tensor.mk p.2 p.1 [])
          outputs := [] }) := by
  refine ⟨fun tc => rfl, ?_, ?_, ?_⟩
  · intro m o h
    unfold Interpreter.with_model
    rw [if_pos h]
  · intro m m2 o h
    unfold Interpreter.with_model
    rw [if_pos h, if_pos h]
  · intro m o h
    unfold Interpreter.with_model
    rw [if_neg (by omega)]

/-- Witness for C3 at concrete options values: thread count 0 is rejected
with `InvalidArgument`, thread count 1 constructs the interpreter. -/
theorem spec_c3_witness :
    Interpreter.with_model addModel ⟨0⟩ = Except.error ErrorKind.invalidArgument ∧
    Interpreter.with_model addModel ⟨1⟩ = Except.ok
      { model := addModel
        options := ⟨1⟩
        allocation_state := AllocationState.created
        inputs := addModel.inputSpecs.map (fun p => Tensor.mk p.2 p.1 [])
        outputs := [] } :=
  ⟨spec_c3.2.1 addModel ⟨0⟩ (by decide), spec_c3.2.2.2 addModel ⟨1⟩ (by decide)⟩

/-- C4: copy fails with `FailedToCopyDataToInputTensor` when the interpreter
is not ready or when the source byte length differs from the input tensor's
byte length; when the interpreter is ready and the lengths match it succeeds
and the copied bytes are afterwards exactly the contents of the indexed
input tensor, which the typed accessor then returns. -/
theorem spec_c4 :
    (∀ (it : Interpreter) (src : List Int) (es i : Nat),
      it.allocation_state ≠ AllocationState.ready →
      it.copy src es i = Except.error ErrorKind.failedToCopyDataToInputTensor) ∧
    (∀ (it : Interpreter) (src : List Int) (es i : Nat) (t : Tensor),
      it.allocation_state = AllocationState.ready →
      it.inputs.get? i = some t →
      src.length * es ≠ t.byte_length →
      it.copy src es i = Except.error ErrorKind.failedToCopyDataToInputTensor) ∧
    (∀ (it : Interpreter) (src : List Int) (es i : Nat) (t : Tensor),
      it.allocation_state = AllocationState.ready →
      it.inputs.get? i = some t →
      src.length * es = t.byte_length →
      it.copy src es i =
        Except.ok { it with inputs := it.inputs.set i (Tensor.mk t.data_type t.shape src) } ∧
      ({ it with inputs := it.inputs.set i (Tensor.mk t.data_type t.shape src) }
          : Interpreter).input i = Except.ok (Tensor.mk t.data_type t.shape src) ∧
      (Tensor.mk t.data_type t.shape src).buffer = src) ∧
    (∀ (it : Interpreter) (src : List Int) (es i : Nat) (t : Tensor),
      it.allocation_state = AllocationState.ready →
      it.inputs.get? i = some t →
      es = t.data_type.byteSize →
      t.buffer.length = t.shape.elementCount.toNat →
      src.length * es = t.byte_length →
      (Tensor.mk t.data_type t.shape src).data es = Except.ok src) := by
  refine ⟨?_, ?_, ?_, ?_⟩
  · intro it src es i h
    unfold Interpreter.copy
    rw [if_pos h]
  · intro it src es i t h1 h2 h3
    unfold Interpreter.copy
    rw [h1, if_neg (fun hc => hc rfl), h2]
    simp only [if_neg h3]
  · intro it src es i t h1 h2 h3
    refine ⟨copy_ok it src es i t h1 h2 h3, ?_, rfl⟩
    unfold Interpreter.input
    have hlt : i < it.inputs.length := lt_of_get?_some it.inputs i t h2
    rw [show ({ it with inputs := it.inputs.set i (Tensor.mk t.data_type t.shape src) }
        : Interpreter).inputs = it.inputs.set i (Tensor.mk t.data_type t.shape src) from rfl]
    rw [get?_set_self it.inputs i (Tensor.mk t.data_type t.shape src) hlt]
  · intro it src es i t h1 h2 h3 h4 h5
    have hc : es * (Tensor.mk t.data_type t.shape src).shape.elementCount.toNat
        = (Tensor.mk t.data_type t.shape src).byte_length := by
      show es * t.shape.elementCount.toNat = src.length * t.data_type.byteSize
      unfold Tensor.byte_length at h5
      rw [h3] at h5
      rw [h3, ← h4]
      calc t.data_type.byteSize * t.buffer.length
          = t.buffer.length * t.data_type.byteSize := Nat.mul_comm _ _
        _ = src.length * t.data_type.byteSize := h5.symm
    unfold Tensor.data
    rw [if_pos hc]

/-- Witness for C4 at concrete states: copying into a non-ready interpreter
fails, a mismatched length fails, and the matching example copy succeeds
with the bytes landing in the input tensor and readable through the typed
accessor. -/
theorem spec_c4_witness :
    itCreated.copy exampleInput 4 0 = Except.error ErrorKind.failedToCopyDataToInputTensor ∧
    itAllocated.copy [] 4 0 = Except.error ErrorKind.failedToCopyDataToInputTensor ∧
    (itAllocated.copy exampleInput 4 0 = Except.ok itAllocatedSet ∧
      itAllocatedSet.input 0 = Except.ok exTensorCopied ∧
      exTensorCopied.buffer = exampleInput) ∧
    exTensorCopied.data 4 = Except.ok exampleInput :=
  ⟨spec_c4.1 itCreated exampleInput 4 0 (by decide),
   spec_c4.2.1 itAllocated [] 4 0 exTensorAlloc rfl rfl (by
     simp only [List.length_nil, exTensorAlloc, Tensor.byte_length, List.length_replicate,
       DataType.byteSize]
     norm_num),
   spec_c4.2.2.1 itAllocated exampleInput 4 0 exTensorAlloc rfl rfl example_len,
   spec_c4.2.2.2 itAllocated exampleInput 4 0 exTensorAlloc rfl rfl rfl (by
     simp only [exTensorAlloc, List.length_replicate]
     decide) example_len⟩

/-- C5: for a shape constructed from a dimension sequence, `dimensions`
returns the constructing sequence, `rank` is its length, and
`element_count` is the product of the dimensions, `0` whenever some
dimension is `0` and `1` for the empty (scalar) shape. -/
theorem spec_c5 :
    (∀ (ds : List Int) (s : Shape), Shape.new ds = Except.ok s →
      s.dimensions = ds ∧ s.rank = ds.length ∧ s.elementCount = ds.prod) ∧
    (∀ s : Shape, (0 : Int) ∈ s.dimensions → s.elementCount = 0) ∧
    (∀ s : Shape, s.dimensions = [] → s.elementCount = 1) := by
  refine ⟨?_, ?_, ?_⟩
  · intro ds s h
    unfold Shape.new at h
    by_cases hall : ∀ d ∈ ds, 0 ≤ d
    · rw [if_pos hall] at h
      injection h with h2
      subst h2
      exact ⟨rfl, rfl, foldr_mul_eq_prod ds⟩
    · rw [if_neg hall] at h
      cases h
  · intro s h
    show s.dimensions.foldr (fun d acc => d * acc) 1 = 0
    rw [foldr_mul_eq_prod]
    exact List.prod_eq_zero h
  · intro s h
    show s.dimensions.foldr (fun d acc => d * acc) 1 = 1
    rw [h]
    rfl

/-- Witness for C5 at concrete shapes: the example shape's accessors, a
zero-dimension shape's element count, and the scalar shape's element count. -/
theorem spec_c5_witness :
    (exampleShape.dimensions = [10, 8, 8, 3] ∧
     exampleShape.rank = [(10 : Int), 8, 8, 3].length ∧
     exampleShape.elementCount = [(10 : Int), 8, 8, 3].prod) ∧
    zeroShape.elementCount = 0 ∧
    emptyShape.elementCount = 1 :=
  ⟨spec_c5.1 [10, 8, 8, 3] exampleShape rfl,
   spec_c5.2.1 zeroShape (by decide),
   spec_c5.2.2 emptyShape rfl⟩

/-- C6: constructing a shape from a sequence containing a negative dimension
fails with `InvalidArgument`, and every successfully constructed shape has
only non-negative dimensions. -/
theorem spec_c6 :
    (∀ ds : List Int, (∃ d, d ∈ ds ∧ d < 0) →
      Shape.new ds = Except.error ErrorKind.invalidArgument) ∧
    (∀ (ds : List Int) (s : Shape), Shape.new ds = Except.ok s →
      ∀ d, d ∈ s.dimensions → 0 ≤ d) := by
  constructor
  · intro ds hn
    obtain ⟨d, hd, hneg⟩ := hn
    unfold Shape.new
    rw [if_neg (fun hall => absurd (hall d hd) (not_le.mpr hneg))]
  · intro ds s h
    unfold Shape.new at h
    by_cases hall : ∀ d ∈ ds, 0 ≤ d
    · rw [if_pos hall] at h
      injection h with h2
      subst h2
      exact hall
    · rw [if_neg hall] at h
      cases h

/-- Witness for C6 at a concrete sequence with a negative dimension. -/
theorem spec_c6_witness :
    Shape.new [3, -1] = Except.error ErrorKind.invalidArgument :=
  spec_c6.1 [3, -1] ⟨-1, by decide, by decide⟩

/-- C7: every tensor of an interpreter returned by a successful
`allocate_tensors` has byte length equal to the element count of its shape
times the byte size of its declared data type. -/
theorem spec_c7 (it it2 : Interpreter) (h : it.allocate_tensors = Except.ok it2) :
    ∀ t, t ∈ it2.inputs ++ it2.outputs →
      t.byte_length = t.shape.elementCount.toNat * t.data_type.byteSize := by
  unfold Interpreter.allocate_tensors at h
  injection h with h2
  subst h2
  intro t ht
  rcases List.mem_append.mp ht with hin | hout
  · rcases List.mem_map.mp hin with ⟨u, _, hu⟩
    subst hu
    simp only [Tensor.byte_length, List.length_replicate]
  · rcases List.mem_map.mp hout with ⟨p, _, hp⟩
    subst hp
    simp only [Tensor.byte_length, List.length_replicate]

/-- Witness for C7 on the allocated example tensor. -/
theorem spec_c7_witness :
    exTensorAlloc.byte_length
      = exTensorAlloc.shape.elementCount.toNat * exTensorAlloc.data_type.byteSize :=
  spec_c7 itPending itAllocated allocate_example exTensorAlloc
    (List.mem_append_left _ (List.mem_cons_self _ _))

/-- C8: for every tensor and requested element size, the typed accessor
returns the buffer as a typed view exactly when the requested element size
times the element count equals the tensor's byte length, and fails with a
typed error instead of reading out of bounds otherwise. -/
theorem spec_c8 (t : Tensor) (elemSize : Nat) :
    (elemSize * t.shape.elementCount.toNat = t.byte_length →
      t.data elemSize = Except.ok t.buffer) ∧
    (elemSize * t.shape.elementCount.toNat ≠ t.byte_length →
      t.data elemSize = Except.error ErrorKind.invalidArgument) := by
  constructor
  · intro h
    unfold Tensor.data
    rw [if_pos h]
  · intro h
    unfold Tensor.data
    rw [if_neg h]

/-- Witness for C8 on the example input tensor: reading it at the matching
element size 4 succeeds, reading it at element size 8 fails. -/
theorem spec_c8_witness :
    exTensor.data 4 = Except.ok exTensor.buffer ∧
    exTensor.data 8 = Except.error ErrorKind.invalidArgument :=
  ⟨(spec_c8 exTensor 4).1 (by
     have h1 : exTensor.shape.elementCount.toNat = 1920 := by decide
     have h2 : exTensor.byte_length = 7680 := by
       simp only [exTensor, Tensor.byte_length, exampleInput, List.length_map,
         List.length_range, DataType.byteSize]
     rw [h1, h2]),
   (spec_c8 exTensor 8).2 (by
     have h1 : exTensor.shape.elementCount.toNat = 1920 := by decide
     have h2 : exTensor.byte_length = 7680 := by
       simp only [exTensor, Tensor.byte_length, exampleInput, List.length_map,
         List.length_range, DataType.byteSize]
     rw [h1, h2]
     norm_num)⟩

/-- C9: an interpreter built from a model retains a strong reference to the
model's buffer, so after the caller discards its own model reference the
buffer is still alive and invoking still succeeds; the model cannot be
destroyed through the public API while the interpreter exists. -/
theorem spec_c9 (s : ModelBufferState) (h1 : s.freed = false) (h2 : 1 ≤ s.refs) :
    (releaseModelBuffer (retainModelBuffer s)).freed = false ∧
    invokeUsingModel (releaseModelBuffer (retainModelBuffer s)) = Except.ok () := by
  have hrel : releaseModelBuffer (retainModelBuffer s)
      = ModelBufferState.mk (s.refs + 1 - 1) s.freed := by
    unfold retainModelBuffer releaseModelBuffer
    rw [if_neg (show ¬(s.refs + 1 ≤ 1) by omega)]
  rw [hrel]
  exact ⟨h1, by simp [invokeUsingModel, h1]⟩

/-- Witness for C9 from a fresh model buffer: build an interpreter, drop the
caller's model reference, and the buffer is alive and invocable. -/
theorem spec_c9_witness :
    (releaseModelBuffer (retainModelBuffer newModelBuffer)).freed = false ∧
    invokeUsingModel (releaseModelBuffer (retainModelBuffer newModelBuffer)) = Except.ok () :=
  spec_c9 newModelBuffer rfl (by decide)

/-- C10: an interpreter is constructed directly from a model file path and
an optional options value, returning a result; passing `None` builds with
the default options, equivalent to passing `Some Options.default`. -/
theorem spec_c10 (path : String) :
    Interpreter.with_model_path path none =
      Interpreter.with_model_path path (some Options.default) := rfl
